import Mathlib

/-!
Verification of the `chrisstoreclient` client library (`client.py`).

The library talks to a Collection+JSON REST API.  We shallowly embed the
client: the HTTP transport is a function from the request the client builds
to either a transport-error message or a decoded response document, and each
client method is a Lean function threading the client state (the memoized
resource-URL table) and counting the transport calls it makes.
-/

namespace ChrisStoreClient

/-- A decoded JSON primitive value as found in Collection+JSON `data`
descriptors and search parameters (string, number or boolean). -/
inductive JValue where
  | s (v : String)
  | i (v : Int)
  | b (v : Bool)
deriving DecidableEq, Repr

/-- One field of a resource: a `(name, value)` descriptor pair. -/
structure Descriptor where
  name : String
  value : JValue
deriving DecidableEq, Repr

/-- A typed hypermedia reference. -/
structure Link where
  rel : String
  href : String
deriving DecidableEq, Repr

/-- One resource instance of a decoded collection. -/
structure Item where
  data : List Descriptor
  links : List Link
  href : String
deriving DecidableEq, Repr

/-- The optional top-level error object of a decoded collection. -/
structure ErrorObj where
  message : String
deriving DecidableEq, Repr

/-- The decoded response document (the result of `json.loads` on the
response text, viewed through `collection_json.Collection.from_json`):
items, top-level links, the optional error object, and the optional
`total` count that `_get_collection_from_response` pops off first. -/
structure Doc where
  items : List Item
  links : List Link
  error : Option ErrorObj
  total : Option Int
deriving DecidableEq, Repr

/-- An HTTP response: a status code (which the client never inspects) and
the decoded body. -/
structure Response where
  status : Nat
  doc : Doc
deriving DecidableEq, Repr

/-- The collection object handed to callers of `get`: the error has already
been checked (a collection with a non-null error is never returned), and
`total` is re-attached when it was present. -/
structure Collection where
  items : List Item
  links : List Link
  total : Option Int
deriving DecidableEq, Repr

/-- A Python dict from string keys to decoded values, modelled as an
insertion-ordered association list with unique keys. -/
abbrev Dict := List (String × JValue)

/-- Query parameters passed to the transport (`params=` of `requests.get`). -/
abbrev Params := List (String × JValue)

/-- The errors a client method can raise: `StoreRequestException`,
`NameError` (unrecognized resource name in `get_url`), and the `IndexError`
of `[0]` on an empty link-relation list. -/
inductive ClientErr where
  | storeRequest (msg : String)
  | nameError (msg : String)
  | indexError
deriving DecidableEq, Repr

/-- Python dict insertion: overwrite in place when the key is present
(keeping its position), append otherwise. -/
def dictInsert (d : Dict) (k : String) (v : JValue) : Dict :=
  if (List.any d (fun p => p.1 = k)) then
    List.map (fun p : String × JValue => if p.1 = k then (k, v) else p) d
  else
    d ++ [(k, v)]

/-- Python dict lookup: the value stored at a key, if any. -/
def dictLookup (d : Dict) (k : String) : Option JValue :=
  Option.map Prod.snd (List.find? (fun p => p.1 = k) d)

/-- Lookup in the string-valued `_urls` table. -/
def urlsLookup (d : List (String × String)) (k : String) : Option String :=
  Option.map Prod.snd (List.find? (fun p => p.1 = k) d)

/-- `StoreClient._get_item_descriptors`: collect an item's descriptors into
a dict, iterating the descriptor list in order. -/
def _get_item_descriptors (item : Item) : Dict :=
  List.foldl (fun d desc => dictInsert d desc.name desc.value) [] item.data

/-- `StoreClient._get_link_relation_urls`: the hrefs of the links of a
collection or item whose `rel` equals the relation name, in link order. -/
def _get_link_relation_urls (links : List Link) (relation_name : String) : List String :=
  List.map Link.href (List.filter (fun link => link.rel = relation_name) links)

/-- The paged result shape `{'data': ..., 'hasNextPage': ...,
'hasPreviousPage': ..., 'total': ...}`. -/
structure PagedResult where
  data : List Dict
  hasNextPage : Bool
  hasPreviousPage : Bool
  total : Int
deriving DecidableEq, Repr

/-- `StoreClient.get_data_from_collection`: flatten each item of the single
given collection, set the page flags from presence of `next`/`previous`
links, and copy `total` when the attribute exists (it was attached only
when present in the decoded document). -/
def get_data_from_collection (collection : Collection) : PagedResult :=
  { data := List.map _get_item_descriptors collection.items,
    hasNextPage := !(List.isEmpty (_get_link_relation_urls collection.links "next")),
    hasPreviousPage := !(List.isEmpty (_get_link_relation_urls collection.links "previous")),
    total := match collection.total with
      | some t => t
      | none => 0 }

/-- `StoreClient._get_collection_from_response`: raise
`StoreRequestException` with the decoded error object's message when that
object is non-null (the HTTP status is never consulted); otherwise return
the collection with `total` re-attached when present. -/
def _get_collection_from_response (response : Response) : Except ClientErr Collection :=
  match response.doc.error with
  | some e => Except.error (ClientErr.storeRequest e.message)
  | none => Except.ok { items := response.doc.items, links := response.doc.links,
                        total := response.doc.total }

/-- `self.content_type`, set once in the constructor. -/
def content_type : String := "application/vnd.collection+json"

/-- The `StoreClient` instance state: the constructor arguments and the
memoized `_urls` table (`username`/`password` are strings with `""`
standing for Python's `None` / empty string, both falsy). -/
structure ClientState where
  store_url : String
  username : String
  password : String
  timeout : Nat
  urls : List (String × String)
deriving DecidableEq, Repr

/-- `StoreClient.__init__`: `_urls` starts with `plugin_metas` pointing at
the store url and the other resources unpopulated. -/
def StoreClient.init (store_url username password : String) (timeout : Nat) : ClientState :=
  { store_url, username, password, timeout,
    urls := [("plugin_metas", store_url), ("plugins", ""), ("pipelines", ""),
             ("plugin_stars", "")] }

/-- `if self.username or self.password:` — basic-auth credentials are
attached exactly when at least one of the two strings is truthy. -/
def auth_of (c : ClientState) : Option (String × String) :=
  if c.username ≠ "" ∨ c.password ≠ "" then some (c.username, c.password) else none

/-- The header dict `{'Content-Type': ..., 'Accept': ...}` used by `get`
and by JSON-templated `_post_put` calls. -/
def json_headers : List (String × String) :=
  [("Content-Type", content_type), ("Accept", content_type)]

/-- The GET request handed to `requests.get`. -/
structure GetRequest where
  url : String
  params : Option Params
  auth : Option (String × String)
  headers : Option (List (String × String))
  timeout : Nat
deriving DecidableEq, Repr

/-- The request `StoreClient.get` builds for a url and params. -/
def mk_get_request (c : ClientState) (url : String) (params : Option Params) : GetRequest :=
  { url, params, auth := auth_of c, headers := some json_headers, timeout := c.timeout }

/-- The transport: maps the GET request the client issues to either a
transport-error message (timeout / connection failure) or a response. -/
abbrev Fetch := GetRequest → Except String Response

/-- `StoreClient.get`: build the request, wrap a transport failure into
`StoreRequestException`, and decode the response. -/
def StoreClient.get (c : ClientState) (fetch : Fetch) (url : String)
    (params : Option Params) : Except ClientErr Collection :=
  match fetch (mk_get_request c url params) with
  | Except.error e => Except.error (ClientErr.storeRequest e)
  | Except.ok r => _get_collection_from_response r

/-- `StoreClient.get_url`: unknown resource names raise `NameError`; a
still-unpopulated url triggers one root fetch that rebuilds the whole
`_urls` table from the root document's `plugins` / `pipelines` /
`plugin_stars` link relations (`[0]` raising `IndexError` when a relation
is absent); a populated url is returned without fetching.  The returned
`Nat` counts the transport calls made. -/
def get_url (c : ClientState) (fetch : Fetch) (resource_name : String) :
    Except ClientErr (String × ClientState × Nat) :=
  match urlsLookup c.urls resource_name with
  | none => Except.error (ClientErr.nameError ("Could not find resource " ++ resource_name ++ "."))
  | some cached =>
    if cached = "" then
      match StoreClient.get c fetch c.store_url none with
      | Except.error e => Except.error e
      | Except.ok collection =>
        match _get_link_relation_urls collection.links "plugins",
              _get_link_relation_urls collection.links "pipelines",
              _get_link_relation_urls collection.links "plugin_stars" with
        | pluginsUrl :: _, pipelinesUrl :: _, starsUrl :: _ =>
          let c2 : ClientState :=
            { c with urls := [("plugin_metas", c.store_url), ("plugins", pluginsUrl),
                              ("pipelines", pipelinesUrl), ("plugin_stars", starsUrl)] }
          match urlsLookup c2.urls resource_name with
          | some u => Except.ok (u, c2, 1)
          | none => Except.error ClientErr.indexError
        | _, _, _ => Except.error ClientErr.indexError
    else
      Except.ok (cached, c, 0)

/-- Python truthiness of the `search_params` argument: `None` and the empty
dict are both falsy. -/
def truthyParams : Option Params → Bool
  | none => false
  | some l => !(List.isEmpty l)

/-- Shared body of `get_plugins` / `get_plugin_metas`: resolve the resource
url, then GET either `url + 'search/'` with the search params or the plain
url, and shape the collection into a paged result. -/
def listResource (resource_name : String) (c : ClientState) (fetch : Fetch)
    (search_params : Option Params) : Except ClientErr (PagedResult × ClientState × Nat) :=
  match get_url c fetch resource_name with
  | Except.error e => Except.error e
  | Except.ok (url, c1, n1) =>
    let query_url := url ++ "search/"
    if truthyParams search_params then
      match StoreClient.get c1 fetch query_url search_params with
      | Except.error e => Except.error e
      | Except.ok collection => Except.ok (get_data_from_collection collection, c1, n1 + 1)
    else
      match StoreClient.get c1 fetch url none with
      | Except.error e => Except.error e
      | Except.ok collection => Except.ok (get_data_from_collection collection, c1, n1 + 1)

/-- `StoreClient.get_plugins`. -/
def get_plugins (c : ClientState) (fetch : Fetch) (search_params : Option Params) :
    Except ClientErr (PagedResult × ClientState × Nat) :=
  listResource "plugins" c fetch search_params

/-- `StoreClient.get_plugin_metas`. -/
def get_plugin_metas (c : ClientState) (fetch : Fetch) (search_params : Option Params) :
    Except ClientErr (PagedResult × ClientState × Nat) :=
  listResource "plugin_metas" c fetch search_params

/-- `StoreClient.get_plugin`: search by exact name (and version when
given, else the latest version), return the first record, and raise
`StoreRequestException` naming the plugin and version when the result set
is empty. -/
def get_plugin (c : ClientState) (fetch : Fetch) (name : String) (version : Option String) :
    Except ClientErr (Dict × ClientState × Nat) :=
  let versionShown := match version with
    | some v => v
    | none => "latest"
  let search_params : Params := match version with
    | some v => [("name_exact", JValue.s name), ("version", JValue.s v)]
    | none => [("name_exact_latest", JValue.s name)]
  match get_plugins c fetch (some search_params) with
  | Except.error e => Except.error e
  | Except.ok (result, c1, n) =>
    match result.data with
    | d :: _ => Except.ok (d, c1, n)
    | [] => Except.error (ClientErr.storeRequest
        ("Could not find plugin name " ++ name ++ " with version " ++ versionShown ++ "."))

/-- `StoreClient.get_plugin_by_id`. -/
def get_plugin_by_id (c : ClientState) (fetch : Fetch) (id : Int) :
    Except ClientErr (Dict × ClientState × Nat) :=
  match get_plugins c fetch (some [("id", JValue.i id)]) with
  | Except.error e => Except.error e
  | Except.ok (result, c1, n) =>
    match result.data with
    | d :: _ => Except.ok (d, c1, n)
    | [] => Except.error (ClientErr.storeRequest
        ("Could not find plugin with id " ++ toString id))

/-- `StoreClient.get_plugin_meta`. -/
def get_plugin_meta (c : ClientState) (fetch : Fetch) (name : String) :
    Except ClientErr (Dict × ClientState × Nat) :=
  match get_plugin_metas c fetch (some [("name_exact", JValue.s name)]) with
  | Except.error e => Except.error e
  | Except.ok (result, c1, n) =>
    match result.data with
    | d :: _ => Except.ok (d, c1, n)
    | [] => Except.error (ClientErr.storeRequest
        ("Could not find plugin meta with name " ++ name ++ "."))

/-- `StoreClient.get_plugin_meta_by_id`. -/
def get_plugin_meta_by_id (c : ClientState) (fetch : Fetch) (id : Int) :
    Except ClientErr (Dict × ClientState × Nat) :=
  match get_plugin_metas c fetch (some [("id", JValue.i id)]) with
  | Except.error e => Except.error e
  | Except.ok (result, c1, n) =>
    match result.data with
    | d :: _ => Except.ok (d, c1, n)
    | [] => Except.error (ClientErr.storeRequest
        ("Could not find plugin meta with id " ++ toString id))

/-- `StoreClient.get_plugin_parameters`: search by id, raise when no
plugin matches, return the empty paged shape without a further fetch when
the item carries no `parameters` link, else GET the first `parameters`
link. -/
def get_plugin_parameters (c : ClientState) (fetch : Fetch) (plugin_id : Int)
    (params : Option Params) : Except ClientErr (PagedResult × ClientState × Nat) :=
  match get_url c fetch "plugins" with
  | Except.error e => Except.error e
  | Except.ok (url, c1, n1) =>
    let query_url := url ++ "search/"
    match StoreClient.get c1 fetch query_url (some [("id", JValue.i plugin_id)]) with
    | Except.error e => Except.error e
    | Except.ok collection =>
      match collection.items with
      | [] => Except.error (ClientErr.storeRequest
          ("Could not find plugin with id: " ++ toString plugin_id ++ "."))
      | item :: _ =>
        match _get_link_relation_urls item.links "parameters" with
        | [] => Except.ok ({ data := [], hasNextPage := false, hasPreviousPage := false,
                             total := 0 }, c1, n1 + 1)
        | l :: _ =>
          match StoreClient.get c1 fetch l params with
          | Except.error e => Except.error e
          | Except.ok c2 => Except.ok (get_data_from_collection c2, c1, n1 + 2)

/-- One `{'name': key, 'value': value}` entry of a Collection+JSON
template. -/
structure TemplateEntry where
  name : String
  value : JValue
deriving DecidableEq, Repr

/-- The `{'template': {'data': [...]}}` document `_makeTemplate` builds. -/
structure TemplateDoc where
  data : List TemplateEntry
deriving DecidableEq, Repr

/-- `StoreClient._makeTemplate`: one template entry per key of the
descriptors dict, in iteration (insertion) order. -/
def _makeTemplate (descriptors_dict : Dict) : TemplateDoc :=
  { data := List.map (fun p : String × JValue => TemplateEntry.mk p.1 p.2) descriptors_dict }

/-- `json.dumps` of a decoded primitive, with Python's default rendering
(strings quoted, booleans lower-case). -/
def json_dumps_jvalue : JValue → String
  | JValue.s v => "\"" ++ v ++ "\""
  | JValue.i v => toString v
  | JValue.b true => "true"
  | JValue.b false => "false"

/-- `json.dumps` of one template entry dict, with Python's default
separators. -/
def json_dumps_entry (e : TemplateEntry) : String :=
  "\x7b\"name\": \"" ++ e.name ++ "\", \"value\": " ++ json_dumps_jvalue e.value ++ "\x7d"

/-- `", ".join` over the rendered entries, as `json.dumps` renders a list
with its default item separator. -/
def json_dumps_entries : List TemplateEntry → String
  | [] => ""
  | [e] => json_dumps_entry e
  | e1 :: e2 :: rest => json_dumps_entry e1 ++ ", " ++ json_dumps_entries (e2 :: rest)

/-- `json.dumps(self._makeTemplate(data))` in `_post_put`, specialized to
the template document shape. -/
def json_dumps_template_doc (t : TemplateDoc) : String :=
  "\x7b\"template\": \x7b\"data\": [" ++ json_dumps_entries t.data ++ "]\x7d\x7d"

/-- The body of a POST/PUT request: either the serialized JSON template
string or the plain fields dict handed to `requests` alongside `files`. -/
inductive ReqData where
  | str (s : String)
  | form (d : Dict)
deriving DecidableEq, Repr

/-- The request `_post_put` hands to `requests.post` / `requests.put`.
The attached file is an opaque handle under the `descriptor_file` field
name. -/
structure PostPutRequest where
  url : String
  files : Option (String × Nat)
  data : ReqData
  auth : Option (String × String)
  headers : Option (List (String × String))
  timeout : Nat
deriving DecidableEq, Repr

/-- `StoreClient._post_put`'s request shaping: with no descriptor file the
body is the serialized JSON template and both media-type headers are set;
with a file the request is multipart (`files` plus the plain fields) and
no headers are set. -/
def mk_post_put_request (c : ClientState) (url : String) (data : Dict)
    (descriptor_file : Option Nat) : PostPutRequest :=
  match descriptor_file with
  | none =>
    { url, files := none,
      data := ReqData.str (json_dumps_template_doc (_makeTemplate data)),
      auth := auth_of c, headers := some json_headers, timeout := c.timeout }
  | some f =>
    { url, files := some ("descriptor_file", f), data := ReqData.form data,
      auth := auth_of c, headers := none, timeout := c.timeout }

/-- The request `StoreClient.delete` hands to `requests.delete` (note: no
headers are passed there). -/
structure DeleteRequest where
  url : String
  auth : Option (String × String)
  timeout : Nat
deriving DecidableEq, Repr

/-- `StoreClient.delete`'s request shaping. -/
def mk_delete_request (c : ClientState) (url : String) : DeleteRequest :=
  { url, auth := auth_of c, timeout := c.timeout }

/-- Specification-side description of duplicate handling: the value of the
last descriptor in the list bearing the given name, if any. -/
def lastValueOf (ds : List Descriptor) (k : String) : Option JValue :=
  List.foldl (fun r d => if d.name = k then some d.value else r) none ds

theorem find_map_insert_eq (d : Dict) (k : String) (v : JValue)
    (h : List.any d (fun p => p.1 = k) = true) :
    List.find? (fun p => p.1 = k)
      (List.map (fun p : String × JValue => if p.1 = k then (k, v) else p) d) = some (k, v) := by
  induction d with
  | nil => simp at h
  | cons p d ih =>
    by_cases hpk : p.1 = k
    · rw [List.map_cons, if_pos hpk, List.find?_cons_of_pos _ (by simp)]
    · have hd : List.any d (fun p => p.1 = k) = true := by
        rw [List.any_cons, Bool.or_eq_true] at h
        rcases h with h | h
        · exact absurd (of_decide_eq_true h) hpk
        · exact h
      rw [List.map_cons, if_neg hpk, List.find?_cons_of_neg _ (by simpa using hpk), ih hd]

theorem find_map_insert_ne (d : Dict) (k j : String) (v : JValue) (h : k ≠ j) :
    List.find? (fun p => p.1 = j)
      (List.map (fun p : String × JValue => if p.1 = k then (k, v) else p) d) =
    List.find? (fun p => p.1 = j) d := by
  induction d with
  | nil => rfl
  | cons p d ih =>
    by_cases hpk : p.1 = k
    · have hpj : ¬ p.1 = j := fun hj => h (hpk ▸ hj)
      rw [List.map_cons, if_pos hpk, List.find?_cons_of_neg _ (by simpa using h),
          List.find?_cons_of_neg _ (by simpa using hpj), ih]
    · by_cases hpj : p.1 = j
      · rw [List.map_cons, if_neg hpk, List.find?_cons_of_pos _ (by simpa using hpj),
            List.find?_cons_of_pos _ (by simpa using hpj)]
      · rw [List.map_cons, if_neg hpk, List.find?_cons_of_neg _ (by simpa using hpj),
            List.find?_cons_of_neg _ (by simpa using hpj), ih]

theorem dictLookup_dictInsert (d : Dict) (k j : String) (v : JValue) :
    dictLookup (dictInsert d k v) j = if k = j then some v else dictLookup d j := by
  unfold dictInsert dictLookup
  cases hany : List.any d (fun p => p.1 = k) with
  | true =>
    simp only [hany, if_true]
    by_cases hkj : k = j
    · subst hkj
      rw [find_map_insert_eq d k v hany]
      simp
    · rw [find_map_insert_ne d k j v hkj]
      simp [hkj]
  | false =>
    simp only [hany, Bool.false_eq_true, if_false]
    by_cases hkj : k = j
    · subst hkj
      have hnone : List.find? (fun p : String × JValue => p.1 = k) d = none := by
        rw [List.find?_eq_none]
        intro x hx hxk
        have : List.any d (fun p => p.1 = k) = true := by
          rw [List.any_eq_true]
          exact ⟨x, hx, hxk⟩
        rw [this] at hany
        exact Bool.true_eq_false.mp hany
      rw [List.find?_append, hnone, Option.none_or, List.find?_cons_of_pos _ (by simp)]
      simp
    · rw [List.find?_append, List.find?_cons_of_neg _ (by simpa using hkj)]
      simp [hkj]

theorem lookup_foldl_insert (ds : List Descriptor) (acc : Dict) (k : String) :
    dictLookup (List.foldl (fun d desc => dictInsert d desc.name desc.value) acc ds) k =
    List.foldl (fun r d => if d.name = k then some d.value else r) (dictLookup acc k) ds := by
  induction ds generalizing acc with
  | nil => rfl
  | cons d ds ih =>
    rw [List.foldl_cons, List.foldl_cons, ih, dictLookup_dictInsert]

theorem foldl_last_some (ds : List Descriptor) (k : String) (r : Option JValue)
    (h : List.foldl (fun r d => if d.name = k then some d.value else r) r ds ≠ none) :
    (∃ d ∈ ds, d.name = k) ∨ r ≠ none := by
  induction ds generalizing r with
  | nil => exact Or.inr h
  | cons d ds ih =>
    rw [List.foldl_cons] at h
    rcases ih _ h with hmem | hr
    · rcases hmem with ⟨w, hw, hwk⟩
      exact Or.inl ⟨w, List.mem_cons_of_mem _ hw, hwk⟩
    · by_cases hdk : d.name = k
      · exact Or.inl ⟨d, List.mem_cons_self _ _, hdk⟩
      · rw [if_neg hdk] at hr
        exact Or.inr hr

/-- Keys present in a flattened item always come from descriptor names. -/
theorem flatten_key_mem (item : Item) (k : String)
    (h : dictLookup (_get_item_descriptors item) k ≠ none) :
    k ∈ List.map Descriptor.name item.data := by
  unfold _get_item_descriptors at h
  rw [lookup_foldl_insert] at h
  rcases foldl_last_some item.data k _ h with ⟨d, hd, hdk⟩ | hr
  · exact hdk ▸ List.mem_map_of_mem Descriptor.name hd
  · exact absurd rfl hr

/-- C6: the descriptor flattener builds the record by inserting each
`(name, value)` pair in list order, later duplicate names overwriting
earlier ones (so the value stored at a key is the last descriptor of that
name), and the concrete item with descriptors `id ↦ 1`, `name ↦ "x"`
flattens to exactly `{"id": 1, "name": "x"}` with the integer value kept
an integer. -/
theorem _get_item_descriptors_spec :
    (∀ (item : Item) (k : String),
       dictLookup (_get_item_descriptors item) k = lastValueOf item.data k) ∧
    _get_item_descriptors
        { data := [{ name := "id", value := JValue.i 1 },
                   { name := "name", value := JValue.s "x" }],
          links := [], href := "" } =
      [("id", JValue.i 1), ("name", JValue.s "x")] := by
  constructor
  · intro item k
    unfold _get_item_descriptors lastValueOf
    rw [lookup_foldl_insert]
    rfl
  · rfl

theorem link_relation_exists_iff (links : List Link) (r : String) :
    ((!(List.isEmpty (_get_link_relation_urls links r))) = true ↔ ∃ l ∈ links, l.rel = r) := by
  unfold _get_link_relation_urls
  simp [List.isEmpty_iff, List.map_eq_nil_iff, List.filter_eq_nil_iff]

/-- C5: the paged result derived from a decoded collection has
`hasNextPage` / `hasPreviousPage` true exactly when a `next` / `previous`
link exists, `total` equal to the decoded total when present and `0` when
absent, and one flattened record per item in item order. -/
theorem get_data_from_collection_paged_spec (collection : Collection) :
    ((get_data_from_collection collection).hasNextPage = true ↔
       ∃ l ∈ collection.links, l.rel = "next") ∧
    ((get_data_from_collection collection).hasPreviousPage = true ↔
       ∃ l ∈ collection.links, l.rel = "previous") ∧
    (∀ t : Int, collection.total = some t → (get_data_from_collection collection).total = t) ∧
    (collection.total = none → (get_data_from_collection collection).total = 0) ∧
    (get_data_from_collection collection).data.length = collection.items.length ∧
    (∀ (i : Nat) (h1 : i < (get_data_from_collection collection).data.length)
       (h2 : i < collection.items.length),
       List.get (get_data_from_collection collection).data ⟨i, h1⟩ =
         _get_item_descriptors (List.get collection.items ⟨i, h2⟩)) := by
  refine ⟨link_relation_exists_iff _ _, link_relation_exists_iff _ _, ?_, ?_, ?_, ?_⟩
  · intro t ht
    simp [get_data_from_collection, ht]
  · intro ht
    simp [get_data_from_collection, ht]
  · simp [get_data_from_collection]
  · intro i h1 h2
    simp [get_data_from_collection]

/-- Witness for C5 at a concrete one-item collection carrying a `next`
link and a total of 5. -/
theorem get_data_from_collection_paged_spec_witness :
    (get_data_from_collection
        { items := [{ data := [{ name := "id", value := JValue.i 1 }], links := [], href := "" }],
          links := [{ rel := "next", href := "http://s/?page=2" }],
          total := some 5 }).total = 5 ∧
    (get_data_from_collection
        { items := [{ data := [{ name := "id", value := JValue.i 1 }], links := [], href := "" }],
          links := [{ rel := "next", href := "http://s/?page=2" }],
          total := some 5 }).hasNextPage = true ∧
    List.get (get_data_from_collection
        { items := [{ data := [{ name := "id", value := JValue.i 1 }], links := [], href := "" }],
          links := [{ rel := "next", href := "http://s/?page=2" }],
          total := some 5 }).data ⟨0, by decide⟩ =
      _get_item_descriptors
        { data := [{ name := "id", value := JValue.i 1 }], links := [], href := "" } := by
  refine ⟨?_, ?_, ?_⟩
  · exact (get_data_from_collection_paged_spec _).2.2.1 5 rfl
  · exact (get_data_from_collection_paged_spec _).1.mpr ⟨{ rel := "next", href := "http://s/?page=2" }, by decide⟩
  · exact (get_data_from_collection_paged_spec _).2.2.2.2.2 0 (by decide) (by decide)

/-- C4: a decoded response whose collection carries a non-null error
object makes the operation raise `StoreRequestException` with exactly the
error object's message, regardless of the HTTP status code, and no
collection is returned. -/
theorem error_object_surfaced :
    (∀ (r : Response) (e : ErrorObj), r.doc.error = some e →
       _get_collection_from_response r = Except.error (ClientErr.storeRequest e.message)) ∧
    (∀ (c : ClientState) (fetch : Fetch) (url : String) (params : Option Params)
       (r : Response) (e : ErrorObj),
       fetch (mk_get_request c url params) = Except.ok r → r.doc.error = some e →
       StoreClient.get c fetch url params = Except.error (ClientErr.storeRequest e.message)) := by
  constructor
  · intro r e he
    unfold _get_collection_from_response
    rw [he]
  · intro c fetch url params r e hf he
    unfold StoreClient.get
    rw [hf]
    dsimp only
    unfold _get_collection_from_response
    rw [he]

/-- Witness for C4: a status-200 response with an error object makes
`get` fail with that message. -/
theorem error_object_surfaced_witness :
    StoreClient.get (StoreClient.init "http://s/" "" "" 30)
      (fun _ => Except.ok { status := 200,
                            doc := { items := [], links := [],
                                     error := some { message := "boom" }, total := none } })
      "http://s/" none = Except.error (ClientErr.storeRequest "boom") := by
  exact error_object_surfaced.2 _ _ "http://s/" none
    { status := 200,
      doc := { items := [], links := [], error := some { message := "boom" }, total := none } }
    { message := "boom" } rfl rfl

theorem auth_of_eq_none_iff (c : ClientState) :
    (auth_of c = none ↔ c.username = "" ∧ c.password = "") := by
  unfold auth_of
  by_cases h : c.username ≠ "" ∨ c.password ≠ ""
  · simp only [h, if_true]
    constructor
    · intro hc
      exact absurd hc (by simp)
    · intro hc
      rcases h with h | h
      · exact absurd hc.1 h
      · exact absurd hc.2 h
  · simp only [h, if_false]
    push_neg at h
    simp [h.1, h.2]

theorem auth_of_eq_some (c : ClientState) (h : c.username ≠ "" ∨ c.password ≠ "") :
    auth_of c = some (c.username, c.password) := by
  unfold auth_of
  rw [if_pos h]

/-- C9: every GET, POST, PUT and DELETE request carries the basic-auth
credentials exactly when at least one of username or password is set, and
carries none when both are empty. -/
theorem basic_auth_attached_iff (c : ClientState) (url : String) (params : Option Params)
    (data : Dict) (file : Option Nat) :
    ((mk_get_request c url params).auth = none ↔ c.username = "" ∧ c.password = "") ∧
    ((c.username ≠ "" ∨ c.password ≠ "") →
       (mk_get_request c url params).auth = some (c.username, c.password)) ∧
    ((mk_delete_request c url).auth = none ↔ c.username = "" ∧ c.password = "") ∧
    ((c.username ≠ "" ∨ c.password ≠ "") →
       (mk_delete_request c url).auth = some (c.username, c.password)) ∧
    ((mk_post_put_request c url data file).auth = none ↔ c.username = "" ∧ c.password = "") ∧
    ((c.username ≠ "" ∨ c.password ≠ "") →
       (mk_post_put_request c url data file).auth = some (c.username, c.password)) := by
  have hpp : (mk_post_put_request c url data file).auth = auth_of c := by
    cases file <;> rfl
  refine ⟨?_, ?_, ?_, ?_, ?_, ?_⟩
  · exact auth_of_eq_none_iff c
  · intro h
    exact auth_of_eq_some c h
  · exact auth_of_eq_none_iff c
  · intro h
    exact auth_of_eq_some c h
  · rw [hpp]
    exact auth_of_eq_none_iff c
  · intro h
    rw [hpp]
    exact auth_of_eq_some c h

/-- Witness for C9: an anonymous client attaches no credentials; a client
with only a username set attaches them to all request kinds. -/
theorem basic_auth_attached_iff_witness :
    (mk_get_request (StoreClient.init "http://s/" "" "" 30) "http://s/" none).auth = none ∧
    (mk_get_request (StoreClient.init "http://s/" "alice" "pw" 30) "http://s/" none).auth =
      some ("alice", "pw") ∧
    (mk_delete_request (StoreClient.init "http://s/" "alice" "pw" 30) "http://s/").auth =
      some ("alice", "pw") ∧
    (mk_post_put_request (StoreClient.init "http://s/" "alice" "pw" 30) "http://s/" []
        none).auth = some ("alice", "pw") := by
  refine ⟨?_, ?_, ?_, ?_⟩
  · exact (basic_auth_attached_iff (StoreClient.init "http://s/" "" "" 30)
      "http://s/" none [] none).1.mpr ⟨rfl, rfl⟩
  · exact (basic_auth_attached_iff (StoreClient.init "http://s/" "alice" "pw" 30)
      "http://s/" none [] none).2.1 (Or.inl (by decide))
  · exact (basic_auth_attached_iff (StoreClient.init "http://s/" "alice" "pw" 30)
      "http://s/" none [] none).2.2.2.1 (Or.inl (by decide))
  · exact (basic_auth_attached_iff (StoreClient.init "http://s/" "alice" "pw" 30)
      "http://s/" none [] none).2.2.2.2.2 (Or.inl (by decide))

/-- Specification-side rendering of one `{"name": k, "value": v}` entry,
written from the claim's words. -/
def entrySpec (p : String × JValue) : String :=
  "\x7b\"name\": \"" ++ p.1 ++ "\", \"value\": " ++ json_dumps_jvalue p.2 ++ "\x7d"

/-- Specification-side comma-joined entry list. -/
def entriesSpec : Dict → String
  | [] => ""
  | [p] => entrySpec p
  | p :: q :: rest => entrySpec p ++ ", " ++ entriesSpec (q :: rest)

/-- Specification-side body string
`{"template": {"data": [{"name": k, "value": v}, ...]}}` built directly
from the fields dictionary, as the claim states it. -/
def templateBodySpec (fields : Dict) : String :=
  "\x7b\"template\": \x7b\"data\": [" ++ entriesSpec fields ++ "]\x7d\x7d"

theorem json_dumps_entries_makeTemplate (d : Dict) :
    json_dumps_entries (_makeTemplate d).data = entriesSpec d := by
  unfold _makeTemplate
  induction d with
  | nil => rfl
  | cons p rest ih =>
    cases rest with
    | nil => rfl
    | cons q rest2 =>
      simp only [List.map_cons] at ih ⊢
      rw [json_dumps_entries, entriesSpec, ih]
      rfl

theorem templateBody_refines (d : Dict) :
    json_dumps_template_doc (_makeTemplate d) = templateBodySpec d := by
  unfold json_dumps_template_doc templateBodySpec
  rw [json_dumps_entries_makeTemplate]

/-- C7: with no descriptor file the POST/PUT body is the JSON
serialization of `{"template": {"data": [{"name": k, "value": v}, ...]}}`
built from the fields dictionary and both Content-Type and Accept carry
the collection+json media type; with a file the request is multipart
(file plus plain fields) with those headers unset; the two shapes are
mutually exclusive for any single request. -/
theorem post_put_request_shape (c : ClientState) (url : String) (data : Dict) (f : Nat) :
    ((mk_post_put_request c url data none).data = ReqData.str (templateBodySpec data) ∧
     (mk_post_put_request c url data none).headers =
       some [("Content-Type", content_type), ("Accept", content_type)] ∧
     (mk_post_put_request c url data none).files = none) ∧
    ((mk_post_put_request c url data (some f)).files = some ("descriptor_file", f) ∧
     (mk_post_put_request c url data (some f)).data = ReqData.form data ∧
     (mk_post_put_request c url data (some f)).headers = none) ∧
    (∀ file : Option Nat,
      ((∃ s, (mk_post_put_request c url data file).data = ReqData.str s) ∧
         (mk_post_put_request c url data file).files = none ∧
         ¬ (mk_post_put_request c url data file).headers = none) ∨
      ((mk_post_put_request c url data file).files ≠ none ∧
         (mk_post_put_request c url data file).headers = none ∧
         ¬ ∃ s, (mk_post_put_request c url data file).data = ReqData.str s)) := by
  refine ⟨⟨?_, rfl, rfl⟩, ⟨rfl, rfl, rfl⟩, ?_⟩
  · show ReqData.str (json_dumps_template_doc (_makeTemplate data)) = _
    rw [templateBody_refines]
  · intro file
    cases file with
    | none =>
      refine Or.inl ⟨⟨json_dumps_template_doc (_makeTemplate data), rfl⟩, rfl, by simp [mk_post_put_request, json_headers]⟩
    | some g =>
      refine Or.inr ⟨by simp [mk_post_put_request], rfl, ?_⟩
      rintro ⟨s, hs⟩
      simp [mk_post_put_request] at hs

/-- C8: an unrecognized resource name raises `NameError`; the first
`get_url` call whose cached url is unpopulated performs exactly one fetch
of the API root and rebuilds the whole `_urls` table (all known resource
names at once); a call finding a populated cached url returns it with no
fetch; and a root document missing an expected link relation makes the
call fail (`IndexError`). -/
theorem get_url_memoization :
    (∀ (c : ClientState) (fetch : Fetch) (name : String),
       urlsLookup c.urls name = none →
       get_url c fetch name =
         Except.error (ClientErr.nameError ("Could not find resource " ++ name ++ "."))) ∧
    (∀ (c : ClientState) (fetch : Fetch) (name : String) (col : Collection)
       (pu piu psu : String) (pus pius psus : List String),
       urlsLookup c.urls name = some "" →
       name ∈ ["plugin_metas", "plugins", "pipelines", "plugin_stars"] →
       StoreClient.get c fetch c.store_url none = Except.ok col →
       _get_link_relation_urls col.links "plugins" = pu :: pus →
       _get_link_relation_urls col.links "pipelines" = piu :: pius →
       _get_link_relation_urls col.links "plugin_stars" = psu :: psus →
       ∃ u, get_url c fetch name =
           Except.ok (u,
             { c with urls := [("plugin_metas", c.store_url), ("plugins", pu),
                               ("pipelines", piu), ("plugin_stars", psu)] }, 1) ∧
         urlsLookup [("plugin_metas", c.store_url), ("plugins", pu),
                     ("pipelines", piu), ("plugin_stars", psu)] name = some u) ∧
    (∀ (c : ClientState) (fetch : Fetch) (name u : String),
       urlsLookup c.urls name = some u → u ≠ "" →
       get_url c fetch name = Except.ok (u, c, 0)) ∧
    (∀ (c : ClientState) (fetch : Fetch) (name : String) (col : Collection),
       urlsLookup c.urls name = some "" →
       StoreClient.get c fetch c.store_url none = Except.ok col →
       _get_link_relation_urls col.links "plugins" = [] →
       get_url c fetch name = Except.error ClientErr.indexError) := by
  refine ⟨?_, ?_, ?_, ?_⟩
  · intro c fetch name h
    unfold get_url
    rw [h]
  · intro c fetch name col pu piu psu pus pius psus hc hmem hget hp hpi hps
    unfold get_url
    rw [hc]
    dsimp only
    rw [if_pos rfl, hget]
    dsimp only
    rw [hp, hpi, hps]
    dsimp only
    simp only [List.mem_cons, List.not_mem_nil, or_false] at hmem
    rcases hmem with h | h | h | h
    · subst h
      exact ⟨c.store_url, by simp [urlsLookup, List.find?], by simp [urlsLookup, List.find?]⟩
    · subst h
      exact ⟨pu, by simp [urlsLookup, List.find?], by simp [urlsLookup, List.find?]⟩
    · subst h
      exact ⟨piu, by simp [urlsLookup, List.find?], by simp [urlsLookup, List.find?]⟩
    · subst h
      exact ⟨psu, by simp [urlsLookup, List.find?], by simp [urlsLookup, List.find?]⟩
  · intro c fetch name u hc hu
    unfold get_url
    rw [hc]
    dsimp only
    rw [if_neg hu]
  · intro c fetch name col hc hget hp
    unfold get_url
    rw [hc]
    dsimp only
    rw [if_pos rfl, hget]
    dsimp only
    rw [hp]

/-- Top-level links of the example API root document. -/
def exRootLinks : List Link :=
  [{ rel := "plugins", href := "http://s/plugins/" },
   { rel := "pipelines", href := "http://s/pipelines/" },
   { rel := "plugin_stars", href := "http://s/plugin_stars/" }]

/-- A transport that always serves the example root document. -/
def exRootFetch : Fetch := fun _ =>
  Except.ok { status := 200,
              doc := { items := [], links := exRootLinks, error := none, total := none } }

/-- A transport whose root document carries no link relations at all. -/
def exBareFetch : Fetch := fun _ =>
  Except.ok { status := 200,
              doc := { items := [], links := [], error := none, total := none } }

/-- The client state as constructed for the example store. -/
def exInit : ClientState := StoreClient.init "http://s/" "" "" 30

/-- Witness for C8 at the example store: unknown name, populating first
call (one fetch), cached second call (no fetch), and missing relation. -/
theorem get_url_memoization_witness :
    get_url exInit exRootFetch "bogus" =
      Except.error (ClientErr.nameError "Could not find resource bogus.") ∧
    get_url exInit exRootFetch "plugins" =
      Except.ok ("http://s/plugins/",
        { exInit with urls := [("plugin_metas", "http://s/"), ("plugins", "http://s/plugins/"),
                               ("pipelines", "http://s/pipelines/"),
                               ("plugin_stars", "http://s/plugin_stars/")] }, 1) ∧
    get_url { exInit with
                urls := [("plugin_metas", "http://s/"), ("plugins", "http://s/plugins/"),
                         ("pipelines", "http://s/pipelines/"),
                         ("plugin_stars", "http://s/plugin_stars/")] } exRootFetch "plugins" =
      Except.ok ("http://s/plugins/",
        { exInit with urls := [("plugin_metas", "http://s/"), ("plugins", "http://s/plugins/"),
                               ("pipelines", "http://s/pipelines/"),
                               ("plugin_stars", "http://s/plugin_stars/")] }, 0) ∧
    get_url exInit exBareFetch "plugins" = Except.error ClientErr.indexError := by
  refine ⟨?_, ?_, ?_, ?_⟩
  · exact get_url_memoization.1 exInit exRootFetch "bogus" rfl
  · obtain ⟨u, h1, h2⟩ := get_url_memoization.2.1 exInit exRootFetch "plugins"
      { items := [], links := exRootLinks, total := none }
      "http://s/plugins/" "http://s/pipelines/" "http://s/plugin_stars/" [] [] []
      rfl (by simp) rfl rfl rfl rfl
    have hu : u = "http://s/plugins/" := by
      have hval : urlsLookup [("plugin_metas", exInit.store_url),
          ("plugins", "http://s/plugins/"), ("pipelines", "http://s/pipelines/"),
          ("plugin_stars", "http://s/plugin_stars/")] "plugins" =
          some "http://s/plugins/" := by
        simp [urlsLookup, List.find?, exInit, StoreClient.init]
      rw [hval] at h2
      exact (Option.some.inj h2).symm
    rw [hu] at h1
    exact h1
  · exact get_url_memoization.2.2.1 _ exRootFetch "plugins" "http://s/plugins/"
      (by simp [urlsLookup, List.find?, exInit, StoreClient.init]) (by decide)
  · exact get_url_memoization.2.2.2 exInit exBareFetch "plugins"
      { items := [], links := [], total := none } rfl rfl rfl

/-- C3: each single-resource lookup raises `StoreRequestException` with a
message naming the lookup key when its result set is empty, while the
listing operations return an empty data list without raising. -/
theorem not_found_vs_empty_list :
    (∀ (c : ClientState) (fetch : Fetch) (name : String) (res : PagedResult)
       (c1 : ClientState) (n : Nat),
       get_plugins c fetch (some [("name_exact_latest", JValue.s name)]) =
         Except.ok (res, c1, n) →
       res.data = [] →
       get_plugin c fetch name none = Except.error (ClientErr.storeRequest
         ("Could not find plugin name " ++ name ++ " with version latest."))) ∧
    (∀ (c : ClientState) (fetch : Fetch) (name version : String) (res : PagedResult)
       (c1 : ClientState) (n : Nat),
       get_plugins c fetch
           (some [("name_exact", JValue.s name), ("version", JValue.s version)]) =
         Except.ok (res, c1, n) →
       res.data = [] →
       get_plugin c fetch name (some version) = Except.error (ClientErr.storeRequest
         ("Could not find plugin name " ++ name ++ " with version " ++ version ++ "."))) ∧
    (∀ (c : ClientState) (fetch : Fetch) (id : Int) (res : PagedResult)
       (c1 : ClientState) (n : Nat),
       get_plugins c fetch (some [("id", JValue.i id)]) = Except.ok (res, c1, n) →
       res.data = [] →
       get_plugin_by_id c fetch id = Except.error (ClientErr.storeRequest
         ("Could not find plugin with id " ++ toString id))) ∧
    (∀ (c : ClientState) (fetch : Fetch) (name : String) (res : PagedResult)
       (c1 : ClientState) (n : Nat),
       get_plugin_metas c fetch (some [("name_exact", JValue.s name)]) =
         Except.ok (res, c1, n) →
       res.data = [] →
       get_plugin_meta c fetch name = Except.error (ClientErr.storeRequest
         ("Could not find plugin meta with name " ++ name ++ "."))) ∧
    (∀ (c : ClientState) (fetch : Fetch) (id : Int) (res : PagedResult)
       (c1 : ClientState) (n : Nat),
       get_plugin_metas c fetch (some [("id", JValue.i id)]) = Except.ok (res, c1, n) →
       res.data = [] →
       get_plugin_meta_by_id c fetch id = Except.error (ClientErr.storeRequest
         ("Could not find plugin meta with id " ++ toString id))) ∧
    (∀ (c : ClientState) (fetch : Fetch) (sp : Option Params) (url : String)
       (c1 : ClientState) (n1 : Nat) (col : Collection),
       get_url c fetch "plugins" = Except.ok (url, c1, n1) →
       truthyParams sp = true →
       StoreClient.get c1 fetch (url ++ "search/") sp = Except.ok col →
       col.items = [] →
       get_plugins c fetch sp = Except.ok (get_data_from_collection col, c1, n1 + 1) ∧
         (get_data_from_collection col).data = []) ∧
    (∀ (c : ClientState) (fetch : Fetch) (sp : Option Params) (url : String)
       (c1 : ClientState) (n1 : Nat) (col : Collection),
       get_url c fetch "plugin_metas" = Except.ok (url, c1, n1) →
       truthyParams sp = true →
       StoreClient.get c1 fetch (url ++ "search/") sp = Except.ok col →
       col.items = [] →
       get_plugin_metas c fetch sp =
           Except.ok (get_data_from_collection col, c1, n1 + 1) ∧
         (get_data_from_collection col).data = []) := by
  refine ⟨?_, ?_, ?_, ?_, ?_, ?_, ?_⟩
  · intro c fetch name res c1 n h hres
    unfold get_plugin
    dsimp only
    rw [h]
    dsimp only
    rw [hres]
    dsimp only
    rw [String.append_assoc, String.append_assoc]
    rfl
  · intro c fetch name version res c1 n h hres
    unfold get_plugin
    dsimp only
    rw [h]
    dsimp only
    rw [hres]
  · intro c fetch id res c1 n h hres
    unfold get_plugin_by_id
    rw [h]
    dsimp only
    rw [hres]
  · intro c fetch name res c1 n h hres
    unfold get_plugin_meta
    rw [h]
    dsimp only
    rw [hres]
  · intro c fetch id res c1 n h hres
    unfold get_plugin_meta_by_id
    rw [h]
    dsimp only
    rw [hres]
  · intro c fetch sp url c1 n1 col hurl htruthy hget hitems
    constructor
    · unfold get_plugins listResource
      simp only [hurl, htruthy, if_true, hget]
    · simp [get_data_from_collection, hitems]
  · intro c fetch sp url c1 n1 col hurl htruthy hget hitems
    constructor
    · unfold get_plugin_metas listResource
      simp only [hurl, htruthy, if_true, hget]
    · simp [get_data_from_collection, hitems]

/-- A transport serving the example root document at the root url and a
zero-item collection everywhere else. -/
def exEmptyStoreFetch : Fetch := fun req =>
  if req.url = "http://s/" then
    Except.ok { status := 200,
                doc := { items := [], links := exRootLinks, error := none, total := none } }
  else
    Except.ok { status := 200, doc := { items := [], links := [], error := none, total := none } }

/-- The client state after the root fetch has populated the url table of
the example store. -/
def exPopulated : ClientState :=
  { exInit with urls := [("plugin_metas", "http://s/"), ("plugins", "http://s/plugins/"),
                         ("pipelines", "http://s/pipelines/"),
                         ("plugin_stars", "http://s/plugin_stars/")] }

/-- Witness for C3 against the zero-item example store: the five lookups
(name with defaulted and with explicit version, the two ids, the meta
name) raise with messages naming the keys, and both listings return empty
data without raising. -/
theorem not_found_vs_empty_list_witness :
    get_plugin exInit exEmptyStoreFetch "simplefsapp" none =
      Except.error (ClientErr.storeRequest
        "Could not find plugin name simplefsapp with version latest.") ∧
    get_plugin exInit exEmptyStoreFetch "simplefsapp" (some "0.1") =
      Except.error (ClientErr.storeRequest
        "Could not find plugin name simplefsapp with version 0.1.") ∧
    get_plugin_by_id exInit exEmptyStoreFetch 3 =
      Except.error (ClientErr.storeRequest "Could not find plugin with id 3") ∧
    get_plugin_meta exInit exEmptyStoreFetch "simplefsapp" =
      Except.error (ClientErr.storeRequest
        "Could not find plugin meta with name simplefsapp.") ∧
    get_plugin_meta_by_id exInit exEmptyStoreFetch 3 =
      Except.error (ClientErr.storeRequest "Could not find plugin meta with id 3") ∧
    get_plugins exInit exEmptyStoreFetch (some [("name", JValue.s "simplefsapp")]) =
      Except.ok (get_data_from_collection { items := [], links := [], total := none },
        exPopulated, 2) ∧
    get_plugin_metas exInit exEmptyStoreFetch (some [("name", JValue.s "simplefsapp")]) =
      Except.ok (get_data_from_collection { items := [], links := [], total := none },
        exInit, 1) ∧
    (get_data_from_collection
      { items := [], links := [], total := none : Collection }).data = [] := by
  refine ⟨?_, ?_, ?_, ?_, ?_, ?_, ?_, ?_⟩
  · exact not_found_vs_empty_list.1 exInit exEmptyStoreFetch "simplefsapp"
      { data := [], hasNextPage := false, hasPreviousPage := false, total := 0 }
      exPopulated 2 rfl rfl
  · exact not_found_vs_empty_list.2.1 exInit exEmptyStoreFetch "simplefsapp" "0.1"
      { data := [], hasNextPage := false, hasPreviousPage := false, total := 0 }
      exPopulated 2 rfl rfl
  · exact not_found_vs_empty_list.2.2.1 exInit exEmptyStoreFetch 3
      { data := [], hasNextPage := false, hasPreviousPage := false, total := 0 }
      exPopulated 2 rfl rfl
  · exact not_found_vs_empty_list.2.2.2.1 exInit exEmptyStoreFetch "simplefsapp"
      { data := [], hasNextPage := false, hasPreviousPage := false, total := 0 }
      exInit 1 rfl rfl
  · exact not_found_vs_empty_list.2.2.2.2.1 exInit exEmptyStoreFetch 3
      { data := [], hasNextPage := false, hasPreviousPage := false, total := 0 }
      exInit 1 rfl rfl
  · exact (not_found_vs_empty_list.2.2.2.2.2.1 exInit exEmptyStoreFetch
      (some [("name", JValue.s "simplefsapp")]) "http://s/plugins/" exPopulated 1
      { items := [], links := [], total := none } rfl rfl rfl rfl).1
  · exact (not_found_vs_empty_list.2.2.2.2.2.2 exInit exEmptyStoreFetch
      (some [("name", JValue.s "simplefsapp")]) "http://s/" exInit 0
      { items := [], links := [], total := none } rfl rfl rfl rfl).1
  · exact (not_found_vs_empty_list.2.2.2.2.2.1 exInit exEmptyStoreFetch
      (some [("name", JValue.s "simplefsapp")]) "http://s/plugins/" exPopulated 1
      { items := [], links := [], total := none } rfl rfl rfl rfl).2

/-- C10: `get_plugin_parameters` raises a store-request error naming the
id when the id search returns zero items; returns the empty paged shape
with no further fetch when the matching item has no `parameters` link; and
otherwise fetches only the first `parameters` link and returns that
collection's paged result. -/
theorem get_plugin_parameters_spec :
    (∀ (c : ClientState) (fetch : Fetch) (plugin_id : Int) (params : Option Params)
       (url : String) (c1 : ClientState) (n1 : Nat) (col : Collection),
       get_url c fetch "plugins" = Except.ok (url, c1, n1) →
       StoreClient.get c1 fetch (url ++ "search/") (some [("id", JValue.i plugin_id)]) =
         Except.ok col →
       col.items = [] →
       get_plugin_parameters c fetch plugin_id params = Except.error (ClientErr.storeRequest
         ("Could not find plugin with id: " ++ toString plugin_id ++ "."))) ∧
    (∀ (c : ClientState) (fetch : Fetch) (plugin_id : Int) (params : Option Params)
       (url : String) (c1 : ClientState) (n1 : Nat) (col : Collection)
       (item : Item) (rest : List Item),
       get_url c fetch "plugins" = Except.ok (url, c1, n1) →
       StoreClient.get c1 fetch (url ++ "search/") (some [("id", JValue.i plugin_id)]) =
         Except.ok col →
       col.items = item :: rest →
       _get_link_relation_urls item.links "parameters" = [] →
       get_plugin_parameters c fetch plugin_id params =
         Except.ok ({ data := [], hasNextPage := false, hasPreviousPage := false,
                      total := 0 }, c1, n1 + 1)) ∧
    (∀ (c : ClientState) (fetch : Fetch) (plugin_id : Int) (params : Option Params)
       (url : String) (c1 : ClientState) (n1 : Nat) (col col2 : Collection)
       (item : Item) (rest : List Item) (l : String) (ls : List String),
       get_url c fetch "plugins" = Except.ok (url, c1, n1) →
       StoreClient.get c1 fetch (url ++ "search/") (some [("id", JValue.i plugin_id)]) =
         Except.ok col →
       col.items = item :: rest →
       _get_link_relation_urls item.links "parameters" = l :: ls →
       StoreClient.get c1 fetch l params = Except.ok col2 →
       get_plugin_parameters c fetch plugin_id params =
         Except.ok (get_data_from_collection col2, c1, n1 + 2)) := by
  refine ⟨?_, ?_, ?_⟩
  · intro c fetch plugin_id params url c1 n1 col hurl hget hitems
    unfold get_plugin_parameters
    simp only [hurl]
    simp only [hget, hitems]
  · intro c fetch plugin_id params url c1 n1 col item rest hurl hget hitems hlinks
    unfold get_plugin_parameters
    simp only [hurl]
    simp only [hget, hitems, hlinks]
  · intro c fetch plugin_id params url c1 n1 col col2 item rest l ls hurl hget hitems hlinks hget2
    unfold get_plugin_parameters
    simp only [hurl]
    simp only [hget, hitems, hlinks, hget2]

/-- The example plugin item: two descriptors and a single `parameters`
link. -/
def exPluginItem : Item :=
  { data := [{ name := "id", value := JValue.i 1 },
             { name := "name", value := JValue.s "simplefsapp" }],
    links := [{ rel := "parameters", href := "http://s/1/parameters/" }],
    href := "http://s/1/" }

/-- The example parameter item of the plugin's parameters collection. -/
def exParamItem : Item :=
  { data := [{ name := "id", value := JValue.i 1 },
             { name := "name", value := JValue.s "dir" }],
    links := [], href := "http://s/parameters/1/" }

/-- A transport serving the root document, the one-item parameters
collection at the parameters url, and the one-item plugin collection
everywhere else. -/
def exStoreFetch : Fetch := fun req =>
  if req.url = "http://s/" then
    Except.ok { status := 200,
                doc := { items := [], links := exRootLinks, error := none, total := none } }
  else if req.url = "http://s/1/parameters/" then
    Except.ok { status := 200,
                doc := { items := [exParamItem], links := [], error := none, total := some 1 } }
  else
    Except.ok { status := 200,
                doc := { items := [exPluginItem], links := [], error := none, total := some 1 } }

/-- A transport like `exStoreFetch` whose plugin item carries no links. -/
def exNoLinkFetch : Fetch := fun req =>
  if req.url = "http://s/" then
    Except.ok { status := 200,
                doc := { items := [], links := exRootLinks, error := none, total := none } }
  else
    Except.ok { status := 200,
                doc := { items := [{ data := [{ name := "id", value := JValue.i 1 }],
                                     links := [], href := "http://s/1/" }],
                         links := [], error := none, total := some 1 } }

/-- Witness for C10: the three behaviours at concrete stores. -/
theorem get_plugin_parameters_spec_witness :
    get_plugin_parameters exInit exEmptyStoreFetch 7 none =
      Except.error (ClientErr.storeRequest "Could not find plugin with id: 7.") ∧
    get_plugin_parameters exInit exNoLinkFetch 1 none =
      Except.ok ({ data := [], hasNextPage := false, hasPreviousPage := false, total := 0 },
        exPopulated, 2) ∧
    get_plugin_parameters exInit exStoreFetch 1 none =
      Except.ok (get_data_from_collection
        { items := [exParamItem], links := [], total := some 1 }, exPopulated, 3) := by
  refine ⟨?_, ?_, ?_⟩
  · exact get_plugin_parameters_spec.1 exInit exEmptyStoreFetch 7 none
      "http://s/plugins/" exPopulated 1 { items := [], links := [], total := none } rfl rfl rfl
  · exact get_plugin_parameters_spec.2.1 exInit exNoLinkFetch 1 none
      "http://s/plugins/" exPopulated 1
      { items := [{ data := [{ name := "id", value := JValue.i 1 }],
                    links := [], href := "http://s/1/" }], links := [], total := some 1 }
      { data := [{ name := "id", value := JValue.i 1 }], links := [], href := "http://s/1/" }
      [] rfl rfl rfl rfl
  · exact get_plugin_parameters_spec.2.2 exInit exStoreFetch 1 none
      "http://s/plugins/" exPopulated 1
      { items := [exPluginItem], links := [], total := some 1 }
      { items := [exParamItem], links := [], total := some 1 }
      exPluginItem [] "http://s/1/parameters/" [] rfl rfl rfl rfl rfl

/-- A transport serving a two-page plugin chain: page one has one item
and a `next` link to page two, which serves one further item. -/
def exTwoPageFetch : Fetch := fun req =>
  if req.url = "http://s/" then
    Except.ok { status := 200,
                doc := { items := [], links := exRootLinks, error := none, total := none } }
  else if req.url = "http://s/plugins/?page=2" then
    Except.ok { status := 200,
                doc := { items := [{ data := [{ name := "id", value := JValue.i 2 }],
                                     links := [], href := "http://s/2/" }],
                         links := [{ rel := "previous", href := "http://s/plugins/" }],
                         error := none, total := some 2 } }
  else
    Except.ok { status := 200,
                doc := { items := [{ data := [{ name := "id", value := JValue.i 1 }],
                                     links := [], href := "http://s/1/" }],
                         links := [{ rel := "next", href := "http://s/plugins/?page=2" }],
                         error := none, total := some 2 } }

theorem records_of_get_data (col : Collection) :
    ∀ r ∈ (get_data_from_collection col).data, ∃ item ∈ col.items,
      r = _get_item_descriptors item ∧
      ∀ k, dictLookup r k ≠ none → k ∈ List.map Descriptor.name item.data := by
  intro r hr
  simp only [get_data_from_collection, List.mem_map] at hr
  obtain ⟨item, hi, hflat⟩ := hr
  refine ⟨item, hi, hflat.symm, ?_⟩
  intro k hk
  rw [← hflat] at hk
  exact flatten_key_mem item k hk

theorem get_url_count (c : ClientState) (fetch : Fetch) (name u : String)
    (c2 : ClientState) (m : Nat) (h : get_url c fetch name = Except.ok (u, c2, m)) :
    m ≤ 1 := by
  unfold get_url at h
  split at h
  · exact absurd h (by simp)
  · split at h
    · split at h
      · exact absurd h (by simp)
      · split at h
        · dsimp only at h
          split at h
          · simp only [Except.ok.injEq, Prod.mk.injEq] at h
            omega
          · exact absurd h (by simp)
        · exact absurd h (by simp)
    · simp only [Except.ok.injEq, Prod.mk.injEq] at h
      omega

/-- C1 (amended): `get_plugins` returns one flattened record per item of
the single fetched collection; every record is exactly the item's
descriptor dict, so every key of a record is one of the item's descriptor
names — link relations such as `parameters` are never followed and never
appear as keys. -/
theorem get_plugins_records_from_descriptors :
    ∀ (c : ClientState) (fetch : Fetch) (sp : Option Params) (res : PagedResult)
      (c1 : ClientState) (n : Nat),
      get_plugins c fetch sp = Except.ok (res, c1, n) →
      ∃ col : Collection, res = get_data_from_collection col ∧
        ∀ r ∈ res.data, ∃ item ∈ col.items, r = _get_item_descriptors item ∧
          ∀ k, dictLookup r k ≠ none → k ∈ List.map Descriptor.name item.data := by
  intro c fetch sp res c1 n h
  unfold get_plugins listResource at h
  split at h
  · exact absurd h (by simp)
  · dsimp only at h
    split at h
    · split at h
      · exact absurd h (by simp)
      · rename_i col heq
        simp only [Except.ok.injEq, Prod.mk.injEq] at h
        obtain ⟨hres, hc, hn⟩ := h
        subst hres
        exact ⟨col, rfl, records_of_get_data col⟩
    · split at h
      · exact absurd h (by simp)
      · rename_i col heq
        simp only [Except.ok.injEq, Prod.mk.injEq] at h
        obtain ⟨hres, hc, hn⟩ := h
        subst hres
        exact ⟨col, rfl, records_of_get_data col⟩

/-- Witness for the amended C1 at the example store whose plugin item has
a `parameters` link: the single record is the descriptor dict and each of
its keys is a descriptor name. -/
theorem get_plugins_records_from_descriptors_witness :
    ∃ col : Collection,
      ({ data := [[("id", JValue.i 1), ("name", JValue.s "simplefsapp")]],
         hasNextPage := false, hasPreviousPage := false, total := 1 } : PagedResult) =
        get_data_from_collection col ∧
      ∀ r ∈ ({ data := [[("id", JValue.i 1), ("name", JValue.s "simplefsapp")]],
               hasNextPage := false, hasPreviousPage := false,
               total := 1 } : PagedResult).data,
        ∃ item ∈ col.items, r = _get_item_descriptors item ∧
          ∀ k, dictLookup r k ≠ none → k ∈ List.map Descriptor.name item.data :=
  get_plugins_records_from_descriptors exInit exStoreFetch none
    { data := [[("id", JValue.i 1), ("name", JValue.s "simplefsapp")]],
      hasNextPage := false, hasPreviousPage := false, total := 1 }
    exPopulated 2 rfl

/-- Counterexample to C1 as stated: at a one-item, one-page collection
whose item carries one `parameters` link whose target serves a one-item
parameters collection (third conjunct), `get_plugins()` returns a single
record with no `parameters` key at all. -/
theorem get_plugins_relation_key_cex :
    get_plugins exInit exStoreFetch none =
      Except.ok ({ data := [[("id", JValue.i 1), ("name", JValue.s "simplefsapp")]],
                   hasNextPage := false, hasPreviousPage := false, total := 1 },
        exPopulated, 2) ∧
    dictLookup [("id", JValue.i 1), ("name", JValue.s "simplefsapp")] "parameters" = none ∧
    StoreClient.get exPopulated exStoreFetch "http://s/1/parameters/" none =
      Except.ok { items := [exParamItem], links := [], total := some 1 } :=
  ⟨rfl, rfl, rfl⟩

/-- C2 (amended): the listing operations fetch only the initial page — at
most two transport calls in all (root resolution plus one page GET) — and
the flattened output has exactly one record per item of that single
fetched collection; further pages reachable through `next` links are
never fetched and are signalled only through `hasNextPage`. -/
theorem get_plugins_single_page :
    ∀ (c : ClientState) (fetch : Fetch) (sp : Option Params) (res : PagedResult)
      (c1 : ClientState) (n : Nat),
      get_plugins c fetch sp = Except.ok (res, c1, n) →
      n ≤ 2 ∧ ∃ col : Collection, res = get_data_from_collection col ∧
        res.data = List.map _get_item_descriptors col.items ∧
        res.data.length = col.items.length := by
  intro c fetch sp res c1 n h
  unfold get_plugins listResource at h
  split at h
  · exact absurd h (by simp)
  · rename_i url c1x n1 hurl
    have hn1 := get_url_count c fetch "plugins" url c1x n1 hurl
    dsimp only at h
    split at h
    · split at h
      · exact absurd h (by simp)
      · rename_i col heq
        simp only [Except.ok.injEq, Prod.mk.injEq] at h
        obtain ⟨hres, hc, hn⟩ := h
        subst hres
        refine ⟨by omega, col, rfl, rfl, ?_⟩
        simp [get_data_from_collection]
    · split at h
      · exact absurd h (by simp)
      · rename_i col heq
        simp only [Except.ok.injEq, Prod.mk.injEq] at h
        obtain ⟨hres, hc, hn⟩ := h
        subst hres
        refine ⟨by omega, col, rfl, rfl, ?_⟩
        simp [get_data_from_collection]

/-- Witness for the amended C2 at the two-page example store below: one
record, two transport calls. -/
theorem get_plugins_single_page_witness :
    (2 : Nat) ≤ 2 ∧ ∃ col : Collection,
      ({ data := [[("id", JValue.i 1)]], hasNextPage := true, hasPreviousPage := false,
         total := 2 } : PagedResult) = get_data_from_collection col ∧
      ({ data := [[("id", JValue.i 1)]], hasNextPage := true, hasPreviousPage := false,
         total := 2 } : PagedResult).data = List.map _get_item_descriptors col.items ∧
      ({ data := [[("id", JValue.i 1)]], hasNextPage := true, hasPreviousPage := false,
         total := 2 } : PagedResult).data.length = col.items.length :=
  get_plugins_single_page exInit exTwoPageFetch none
    { data := [[("id", JValue.i 1)]], hasNextPage := true, hasPreviousPage := false,
      total := 2 }
    exPopulated 2 rfl

/-- Counterexample to C2 as stated: a two-page chain (page one links
`next` to page two, which serves one further item, second conjunct), yet
`get_plugins` returns only page one's single record — not the two records
the summed chain would give. -/
theorem get_plugins_pagination_cex :
    get_plugins exInit exTwoPageFetch none =
      Except.ok ({ data := [[("id", JValue.i 1)]], hasNextPage := true,
                   hasPreviousPage := false, total := 2 }, exPopulated, 2) ∧
    StoreClient.get exPopulated exTwoPageFetch "http://s/plugins/?page=2" none =
      Except.ok { items := [{ data := [{ name := "id", value := JValue.i 2 }],
                              links := [], href := "http://s/2/" }],
                  links := [{ rel := "previous", href := "http://s/plugins/" }],
                  total := some 2 } :=
  ⟨rfl, rfl⟩

end ChrisStoreClient
